import Mathlib

/-!
# MarketMinds — verification of the specification against the code

Shallow embedding of the MarketMinds client (TypeScript, under `src/client`
and the unnamed client modules) and, where the server core is not part of
the source tree, models built from the specification (each such definition
is marked `Modelled from the spec:` in its doc comment).

Numbers that are JavaScript/Python floats in the code are embedded as `Rat`;
dates that only need ordering are embedded as `Nat`, dates that are opaque
strings as `String`.
-/

namespace MarketMinds

/-! ## Client type definitions (src/unnamed/part_004) -/

/-- `PriceData` from the client type definitions: one OHLCV bar. -/
structure PriceData where
  id : Nat
  symbol : String
  date : String
  «open» : Rat
  high : Rat
  low : Rat
  close : Rat
  volume : Nat
deriving Repr, DecidableEq

/-- The `pagination` object of a `PaginatedResponse`. -/
structure Pagination where
  total : Nat
  offset : Nat
  limit : Nat
  days : Nat
deriving Repr, DecidableEq

/-- `PaginatedResponse<T>` from the client type definitions: an object with a
`data` list and a `pagination` object.  It is an object, never itself a
JavaScript array. -/
structure PaginatedResponse (T : Type) where
  data : List T
  pagination : Pagination
deriving Repr, DecidableEq

/-- `CandlestickData` from the client type definitions: the chart row shape. -/
structure CandlestickData where
  time : String
  «open» : Rat
  high : Rat
  low : Rat
  close : Rat
deriving Repr, DecidableEq

/-- `Headline` from the client type definitions.  `source`, `url` and
`sentiment_score` are optional fields. -/
structure Headline where
  id : Nat
  symbol : String
  date : String
  title : String
  source : Option String
  url : Option String
  sentiment_score : Option Rat
deriving Repr, DecidableEq

/-- The `direction` field of a `PredictionResponse` is restricted by its
TypeScript type to the two string literals `up` and `down`. -/
inductive Direction where
  | up
  | down
deriving Repr, DecidableEq

/-- `PredictionResponse` from the client type definitions: exactly the fields
`symbol`, `current_price`, `predicted_price`, `direction`, `change_percent`,
`sentiment_contribution`, `prediction_date`, `model_version`, all required. -/
structure PredictionResponse where
  symbol : String
  current_price : Rat
  predicted_price : Rat
  direction : Direction
  change_percent : Rat
  sentiment_contribution : Rat
  prediction_date : String
  model_version : String
deriving Repr, DecidableEq

/-- `TrainingResponse` from the client type definitions: required `status` and
`message`, optional `final_loss` and `data_points`. -/
structure TrainingResponse where
  status : String
  message : String
  final_loss : Option Rat
  data_points : Option Nat
deriving Repr, DecidableEq

/-! ## usePrices (src/unnamed/part_006)

The hook stores fetched `PriceData[]` and derives `candlestickData` with
`Array.isArray(data) ? data.map(...) : []`.  A JavaScript value held in the
`data` state is either an array of `PriceData` or some non-array value; the
embedding keeps both possibilities. -/

/-- The projection applied to each `PriceData` by `usePrices`:
`{ time: price.date, open, high, low, close }`. -/
def toCandlestick (price : PriceData) : CandlestickData :=
  { time := price.date
    «open» := price.«open»
    high := price.high
    low := price.low
    close := price.close }

/-- A JavaScript value that the `data` state of `usePrices` may hold: an
array of `PriceData`, or a non-array value. -/
inductive PricesValue where
  | array (l : List PriceData)
  | nonArray
deriving Repr, DecidableEq

/-- `Array.isArray` on a `PricesValue`. -/
def PricesValue.isArray : PricesValue → Bool
  | .array _ => true
  | .nonArray => false

/-- The `candlestickData` derivation in `usePrices`:
`Array.isArray(data) ? data.map(toCandlestick) : []`. -/
def candlestickData : PricesValue → List CandlestickData
  | .array l => l.map toCandlestick
  | .nonArray => []

/-! ## NewsPanel (src/client/src/components/widgets/NewsPanel.tsx) and
getHeadlines (src/unnamed/part_005)

`getHeadlines` resolves with `response.data`, a `PaginatedResponse<Headline>`
object.  `NewsPanel.fetchNews` then runs
`setHeadlines(Array.isArray(data) ? data : [])`. -/

/-- A JavaScript value as seen by `NewsPanel.fetchNews`: either an array of
headlines or a `PaginatedResponse` object. -/
inductive HeadlinesValue where
  | array (l : List Headline)
  | paginated (p : PaginatedResponse Headline)
deriving Repr, DecidableEq

/-- `Array.isArray` on a `HeadlinesValue`: a `PaginatedResponse` is a plain
object, never an array. -/
def HeadlinesValue.isArray : HeadlinesValue → Bool
  | .array _ => true
  | .paginated _ => false

/-- `getHeadlines` (src/unnamed/part_005): resolves with the response body,
which is the `PaginatedResponse<Headline>` object itself. -/
def getHeadlinesResult (p : PaginatedResponse Headline) : HeadlinesValue :=
  .paginated p

/-- The headline state set by `NewsPanel.fetchNews` on a successful fetch:
`Array.isArray(data) ? data : []`. -/
def fetchNewsHeadlines (v : HeadlinesValue) : List Headline :=
  if v.isArray then
    match v with
    | .array l => l
    | .paginated _ => []
  else []

/-- What the `NewsPanel` body renders, by the JSX triage order. -/
inductive NewsView where
  | skeleton
  | errorView (msg : String)
  | headlineList (hs : List Headline)
  | noNews
deriving Repr, DecidableEq

/-- The `NewsPanel` render triage: loading → skeleton, error → error state,
non-empty headlines → the list, otherwise the empty state
("No recent news found"). -/
def newsPanelView (loading : Bool) (error : Option String)
    (headlines : List Headline) : NewsView :=
  if loading then .skeleton
  else
    match error with
    | some msg => .errorView msg
    | none => if headlines.length > 0 then .headlineList headlines else .noNews

/-! ## API call outcomes

After the response interceptor, an API call either resolves with a typed
body or rejects with an `Error` carrying a message string. -/

/-- Outcome of an awaited API call in the client. -/
inductive ApiResult (T : Type) where
  | ok (value : T)
  | err (message : String)
deriving Repr, DecidableEq

/-- Substring test on character lists: JavaScript
`message.includes(needle)`. -/
def listIncludes (haystack needle : List Char) : Bool :=
  match haystack with
  | [] => needle.isEmpty
  | _ :: t => needle.isPrefixOf haystack || listIncludes t needle

/-- JavaScript `String.prototype.includes`. -/
def strIncludes (haystack needle : String) : Bool :=
  listIncludes haystack.toList needle.toList

/-! ## Response interceptor (src/unnamed/part_005, lines 30–42)

`const message = error.response?.data?.detail || error.message ||
'An error occurred'; return Promise.reject(new Error(message))`. -/

/-- The `{ detail }` error body (`ApiError` in the client types). -/
structure ErrBody where
  detail : String
deriving Repr, DecidableEq

/-- The `response` part of an `AxiosError`: its `data` body may be absent. -/
structure ErrResponse where
  data : Option ErrBody
deriving Repr, DecidableEq

/-- The parts of an `AxiosError<ApiError>` the interceptor reads: an optional
`response` and the error's own `message` string. -/
structure AxiosErrorModel where
  response : Option ErrResponse
  message : String
deriving Repr, DecidableEq

/-- The optional chain `error.response?.data?.detail`: `undefined` as soon as
`response` or `data` is absent. -/
def AxiosErrorModel.detailField (e : AxiosErrorModel) : Option String :=
  (e.response.bind (fun r => r.data)).map (fun b => b.detail)

/-- JavaScript `||` on a possibly-`undefined` string: the empty string is
falsy, so it falls through to the fallback just like `undefined`. -/
def jsOrString (v : Option String) (fallback : String) : String :=
  match v with
  | some s => if s = "" then fallback else s
  | none => fallback

/-- The interceptor's `message` expression:
`error.response?.data?.detail || error.message || 'An error occurred'`. -/
def interceptorMessage (e : AxiosErrorModel) : String :=
  jsOrString e.detailField (jsOrString (some e.message) "An error occurred")

/-- What the interceptor rejects with: always `new Error(message)`, never the
raw `AxiosError` or an unclassified value. -/
inductive InterceptResult where
  | jsError (message : String)
deriving Repr, DecidableEq

/-- The interceptor's rejection handler. -/
def interceptError (e : AxiosErrorModel) : InterceptResult :=
  .jsError (interceptorMessage e)

/-! ## usePrediction (src/client/src/hooks/usePrediction.ts)

The hook keeps `prediction : PredictionResponse | null` and
`error : string | null`; `predict` and `train` mutate them as below. -/

/-- The client-visible prediction state held by `usePrediction`. -/
structure PredictState where
  prediction : Option PredictionResponse
  error : Option String
deriving Repr, DecidableEq

/-- One `predict(symbol)` call of `usePrediction`, as a function of the API
call's outcome: `setError(null)` runs first; on success the response is
stored; on an error whose message includes `not trained` the prediction is
cleared and no error is recorded; on any other error the message is
recorded. -/
def predictStep (st : PredictState) (result : ApiResult PredictionResponse) :
    PredictState :=
  let st1 : PredictState := { st with error := none }
  match result with
  | .ok r => { st1 with prediction := some r }
  | .err m =>
      if strIncludes m "not trained" then { st1 with prediction := none }
      else { st1 with error := some m }

/-- One `train(symbol)` call of `usePrediction`, as a function of the API
call's outcome: resolves `true` with the error cleared on success, `false`
with the message recorded on failure; the prediction state is untouched. -/
def trainStep (st : PredictState) (result : ApiResult TrainingResponse) :
    Bool × PredictState :=
  match result with
  | .ok _ => (true, { st with error := none })
  | .err m => (false, { st with error := some m })

/-! ## Server core, modelled from the spec

The server (sentiment aggregator, feature fusion, forecasting model,
orchestrators) is not part of the source tree; these definitions follow the
specification's words. -/

/-- Modelled from the spec: the Prediction Orchestrator's `predict` endpoint
(server code not in the tree).  For a symbol with no current model artifact
the request carries a `not trained` indicator instead of a prediction; at
the HTTP client boundary this arrives as a rejected call whose message
contains `not trained`. -/
def getPredictionNoModel (_symbol : String) : ApiResult PredictionResponse :=
  .err "Model not trained. Please train the model first."

/-- Modelled from the spec: the train endpoint returns immediately with
"training started" — a TrainingJob-derived summary whose `final_loss` and
`data_points` are not yet available. -/
def trainStartedResponse : TrainingResponse :=
  { status := "training_started"
    message := "Training started"
    final_loss := none
    data_points := none }

/-- Modelled from the spec: `direction = up if predicted > current close
else down` (Prediction Orchestrator, step 4). -/
def predictionDirection (current predicted : Rat) : Direction :=
  if predicted > current then .up else .down

/-- Round a rational to two decimal places (the fixed precision of
`change_percent`). -/
def roundTo2 (x : Rat) : Rat :=
  ((round (x * 100) : Int) : Rat) / 100

/-- Modelled from the spec: `change_percent = (predicted − current) /
current × 100, rounded to a fixed precision` (Prediction Orchestrator,
step 4). -/
def changePercent (current predicted : Rat) : Rat :=
  roundTo2 ((predicted - current) / current * 100)

/-! ### Sentiment Aggregator, modelled from the spec (§4.2)

The aggregator reduces the scored headlines of one (symbol, date) to at most
one `DailySentiment` row: no row at all when there are zero headlines, the
arithmetic mean otherwise, plus the headline count and the headline with the
most extreme absolute score (tie-break: earliest by time, then insertion
order). -/

/-- A headline already scored by the Sentiment Scoring Engine, as the
aggregator sees it: its title, its bounded score, and its publish time used
for tie-breaking. -/
structure ScoredHeadline where
  title : String
  score : Rat
  time : Nat
deriving Repr, DecidableEq

/-- The `DailySentiment` row the aggregator emits. -/
structure DailySentimentRow where
  symbol : String
  date : String
  avg_sentiment : Rat
  headline_count : Nat
  top_headline : String
deriving Repr, DecidableEq

/-- Modelled from the spec: pick the headline with the most extreme
absolute score; on a tie keep the earlier one by time, and on an equal time
the one first in insertion order. -/
def pickTop (best : ScoredHeadline) : List ScoredHeadline → ScoredHeadline
  | [] => best
  | h :: t =>
      if |h.score| > |best.score| ∨ (|h.score| = |best.score| ∧ h.time < best.time) then
        pickTop h t
      else pickTop best t

/-- Modelled from the spec: the Sentiment Aggregator for one (symbol, date).
Zero headlines emit no row; otherwise the row carries the mean score, the
count, and the top headline. -/
def aggregateDaily (symbol date : String) (hs : List ScoredHeadline) :
    Option DailySentimentRow :=
  match hs with
  | [] => none
  | h :: t =>
      some
        { symbol := symbol
          date := date
          avg_sentiment := ((h :: t).map (fun x => x.score)).sum / (h :: t).length
          headline_count := (h :: t).length
          top_headline := (pickTop h t).title }

/-- Modelled from the spec: one aggregator run against the Store's slot for
this (symbol, date).  An emitted row supersedes the stored one
(last-write-wins); when no row is emitted the slot is left as it is. -/
def runAggregator (symbol date : String) (hs : List ScoredHeadline)
    (slot : Option DailySentimentRow) : Option DailySentimentRow :=
  match aggregateDaily symbol date hs with
  | some row => some row
  | none => slot

/-! ### SentimentOverlay (src/client/src/components/widgets/MetricsGrid.tsx,
lines 133–146)

The client widget averages the non-null `avg_sentiment` values it received
and shows 0 labelled "Neutral" when there are none. -/

/-- The `SentimentData` rows the overlay receives. -/
structure SentimentData where
  date : String
  avg_sentiment : Option Rat
deriving Repr, DecidableEq

/-- The overlay's `avgSentiment`: mean of the non-null `avg_sentiment`
values, and `0` when every value is null or the list is empty. -/
def sentimentOverlayAvg (data : List SentimentData) : Rat :=
  let valid := data.filter (fun d => d.avg_sentiment.isSome)
  if valid.length > 0 then
    (valid.map (fun d => d.avg_sentiment.getD 0)).sum / valid.length
  else 0

/-- The overlay's `getSentimentLabel`: "Bullish" above 0.3, "Bearish" below
−0.3, "Neutral" otherwise. -/
def getSentimentLabel (score : Rat) : String :=
  if score > 3 / 10 then "Bullish"
  else if score < -(3 / 10) then "Bearish"
  else "Neutral"

/-! ### Feature Fusion Pipeline, modelled from the spec (§4.3)

Pull the window's price bars (unique per date, chronologically ordered —
the fusion step itself guarantees the order), attach daily sentiment with a
neutral default of 0, normalize prices min-max over the window, and emit one
`FeatureRow` per retained trading date; fail with `InsufficientData` below
the minimum window length. -/

/-- A price bar as the server core consumes it; the date is a trading-day
index. -/
structure PriceBar where
  symbol : String
  date : Nat
  close : Rat
deriving Repr, DecidableEq

/-- One fused row: date, normalized price feature, sentiment feature. -/
structure FeatureRow where
  date : Nat
  priceFeature : Rat
  sentimentFeature : Rat
deriving Repr, DecidableEq

/-- The error of the fusion pipeline. -/
inductive FusionError where
  | insufficientData
deriving Repr, DecidableEq

/-- Insert a bar into a date-ordered list, keeping dates strictly
increasing: an equal date supersedes the stored bar (bars are unique per
(symbol, date), last write wins). -/
def insertBar (b : PriceBar) : List PriceBar → List PriceBar
  | [] => [b]
  | c :: t =>
      if b.date < c.date then b :: c :: t
      else if b.date = c.date then b :: t
      else c :: insertBar b t

/-- Order the window's bars by date, collapsing duplicate dates. -/
def sortBars (bs : List PriceBar) : List PriceBar :=
  bs.foldr insertBar []

/-- Modelled from the spec: attach the date's `DailySentiment` when present,
else the neutral default 0. -/
def sentimentFor (sents : List (Nat × Rat)) (d : Nat) : Rat :=
  match sents.find? (fun s => s.1 = d) with
  | some s => s.2
  | none => 0

/-- Min-max normalization of a close price over the window's closes. -/
def minmaxNorm (closes : List Rat) (c : Rat) : Rat :=
  let lo := closes.foldr min c
  let hi := closes.foldr max c
  if hi = lo then 0 else (c - lo) / (hi - lo)

/-- Modelled from the spec: the Feature Fusion Pipeline for one window.
Orders the bars by date, fails with `InsufficientData` under `minLen` rows,
and otherwise emits one `FeatureRow` per trading date in date order. -/
def fuseWindow (minLen : Nat) (bars : List PriceBar)
    (sents : List (Nat × Rat)) : Except FusionError (List FeatureRow) :=
  let ordered := sortBars bars
  if ordered.length < minLen then .error .insufficientData
  else
    .ok (ordered.map (fun b =>
      { date := b.date
        priceFeature := minmaxNorm (ordered.map (fun x => x.close)) b.close
        sentimentFeature := sentimentFor sents b.date }))

/-! ## Theorems -/

/-- C5: every `PredictionResult` handed to the presentation layer carries
exactly the fields `symbol`, `current_price`, `predicted_price`, `direction`,
`change_percent`, `sentiment_contribution`, `prediction_date` and
`model_version`, and `direction` takes only the two values up and down. -/
theorem predictionResponse_exact_fields :
    (∀ r : PredictionResponse,
        r = PredictionResponse.mk r.symbol r.current_price r.predicted_price
          r.direction r.change_percent r.sentiment_contribution
          r.prediction_date r.model_version) ∧
    (∀ d : Direction, d = .up ∨ d = .down) := by
  refine ⟨fun r => rfl, fun d => ?_⟩
  cases d
  · exact Or.inl rfl
  · exact Or.inr rfl

/-- C10: the `candlestickData` derived by `usePrices` has the same length and
order as the fetched `PriceData` list, each element is the projection of the
corresponding `PriceData` (time = date, OHLC copied unchanged), and a
non-array `data` value yields the empty list. -/
theorem usePrices_candlestickData_projection (l : List PriceData) :
    (candlestickData (.array l)).length = l.length ∧
    (∀ i, ∀ h : i < l.length,
        (candlestickData (.array l)).get ⟨i, by simpa [candlestickData] using h⟩ =
          toCandlestick (l.get ⟨i, h⟩)) ∧
    candlestickData .nonArray = [] := by
  refine ⟨by simp [candlestickData], fun i h => ?_, rfl⟩
  simp [candlestickData]

/-- Witness for C10 at a concrete one-bar list and index 0. -/
theorem usePrices_candlestickData_projection_witness :
    (candlestickData (.array [⟨1, "RELIANCE", "2024-01-02", 10, 12, 9, 11, 1000⟩])).get
        ⟨0, by simp [candlestickData]⟩ =
      toCandlestick ⟨1, "RELIANCE", "2024-01-02", 10, 12, 9, 11, 1000⟩ :=
  (usePrices_candlestickData_projection
    [⟨1, "RELIANCE", "2024-01-02", 10, 12, 9, 11, 1000⟩]).2.1 0 (by decide)

/-- C2: `getHeadlines` resolves to a `PaginatedResponse` object, never an
array, so the `Array.isArray(data)` guard of `NewsPanel.fetchNews` always
fails: the headlines state is always set to the empty list, and with loading
finished and no error the panel renders the "No recent news found" empty
state regardless of the response content. -/
theorem newsPanel_headlines_always_empty (p : PaginatedResponse Headline) :
    fetchNewsHeadlines (getHeadlinesResult p) = [] ∧
    newsPanelView false none (fetchNewsHeadlines (getHeadlinesResult p)) =
      .noNews := by
  exact ⟨rfl, rfl⟩

/-- C1: when a symbol has no current model artifact, the modelled predict
call rejects with a `not trained` message, and the client's `predict`
absorbs it: the resulting client-visible state has no prediction (so no
`predicted_price` or `direction` value exists) and no error recorded. -/
theorem predict_no_model_state (st : PredictState) (symbol : String) :
    (predictStep st (getPredictionNoModel symbol)).prediction = none ∧
    (predictStep st (getPredictionNoModel symbol)).error = none := by
  have hmsg :
      strIncludes "Model not trained. Please train the model first."
        "not trained" = true := by decide
  constructor <;> simp [predictStep, getPredictionNoModel, hmsg]

/-- C6: the train request resolves with a TrainingJob-derived summary whose
`final_loss` and `data_points` are optional (absent in the immediate
"training started" reply), and the client's `train` resolves `true` exactly
on success and `false` with the error recorded on failure. -/
theorem train_request_summary (st : PredictState) (m : String) :
    trainStartedResponse.status = "training_started" ∧
    trainStartedResponse.final_loss = none ∧
    trainStartedResponse.data_points = none ∧
    trainStep st (.ok trainStartedResponse) = (true, { st with error := none }) ∧
    trainStep st (.err m) = (false, { st with error := some m }) ∧
    (∀ r : TrainingResponse,
        r = TrainingResponse.mk r.status r.message r.final_loss r.data_points) :=
  ⟨rfl, rfl, rfl, rfl, rfl, fun _ => rfl⟩

/-- C8: the Sentiment Aggregator is idempotent — a second run on the same
headline set leaves the Store slot exactly as the first run did. -/
theorem aggregator_idempotent (symbol date : String) (hs : List ScoredHeadline)
    (slot : Option DailySentimentRow) :
    runAggregator symbol date hs (runAggregator symbol date hs slot) =
      runAggregator symbol date hs slot := by
  unfold runAggregator
  cases aggregateDaily symbol date hs <;> rfl

/-- C9 counterexample: an error whose response body has `detail = ""`.  The
detail field is present, yet JavaScript `||` treats the empty string as
falsy, so the interceptor's message is the transport error's own message,
not the present detail field. -/
theorem interceptor_empty_detail_counterexample :
    AxiosErrorModel.detailField
        { response := some { data := some { detail := "" } },
          message := "Network Error" } = some "" ∧
    interceptorMessage
        { response := some { data := some { detail := "" } },
          message := "Network Error" } = "Network Error" ∧
    ("Network Error" : String) ≠ "" := by
  refine ⟨rfl, rfl, ?_⟩
  decide

/-- C9 (amended): the interceptor rejects with an Error whose message is the
response body's detail field when present and non-empty, otherwise the
transport error's own message when non-empty, otherwise the string
`An error occurred`; the rejection value is always a constructed Error
carrying that message, never the raw AxiosError. -/
theorem interceptor_message_policy (e : AxiosErrorModel) :
    (∀ d, e.detailField = some d → d ≠ "" → interceptorMessage e = d) ∧
    ((e.detailField = none ∨ e.detailField = some "") → e.message ≠ "" →
        interceptorMessage e = e.message) ∧
    ((e.detailField = none ∨ e.detailField = some "") → e.message = "" →
        interceptorMessage e = "An error occurred") ∧
    interceptError e = .jsError (interceptorMessage e) := by
  refine ⟨fun d hd hne => ?_, fun hd hne => ?_, fun hd he => ?_, rfl⟩
  · simp [interceptorMessage, hd, jsOrString, hne]
  · rcases hd with h | h <;>
      simp [interceptorMessage, h, jsOrString, hne]
  · rcases hd with h | h <;>
      simp [interceptorMessage, h, jsOrString, he]

/-- Witness for C9's amended theorem at a concrete error with a non-empty
detail field. -/
theorem interceptor_message_policy_witness :
    interceptorMessage
        { response := some { data := some { detail := "Asset not found" } },
          message := "Request failed with status code 404" } =
      "Asset not found" :=
  (interceptor_message_policy
      { response := some { data := some { detail := "Asset not found" } },
        message := "Request failed with status code 404" }).1
    "Asset not found" rfl (by decide)

/-- C4: the Sentiment Aggregator emits no `DailySentiment` row for a date
with zero headlines, while a non-empty headline set yields a row whose
aggregate is the arithmetic mean of the scores; the client's
`SentimentOverlay`, by contrast, displays an average of 0 labelled
"Neutral" when it has no sentiment rows. -/
theorem aggregator_empty_vs_overlay (symbol date : String)
    (hs : List ScoredHeadline) (h : hs ≠ []) :
    aggregateDaily symbol date [] = none ∧
    (aggregateDaily symbol date hs).map (fun r => r.avg_sentiment) =
      some ((hs.map (fun x => x.score)).sum / hs.length) ∧
    (aggregateDaily symbol date hs).map (fun r => r.headline_count) =
      some hs.length ∧
    sentimentOverlayAvg [] = 0 ∧
    getSentimentLabel (sentimentOverlayAvg []) = "Neutral" := by
  cases hs with
  | nil => exact absurd rfl h
  | cons a t =>
      refine ⟨rfl, rfl, rfl, ?_, ?_⟩
      · simp [sentimentOverlayAvg]
      · norm_num [sentimentOverlayAvg, getSentimentLabel]

/-- Witness for C4 at a concrete one-headline set. -/
theorem aggregator_empty_vs_overlay_witness :
    (aggregateDaily "ABC" "2024-01-02"
        [{ title := "ABC rallies", score := 1 / 2, time := 0 }]).map
      (fun r => r.headline_count) = some 1 :=
  (aggregator_empty_vs_overlay "ABC" "2024-01-02"
      [{ title := "ABC rallies", score := 1 / 2, time := 0 }]
      (by simp)).2.2.1

/-- Rounding to two decimals moves a value by at most half of the last kept
digit. -/
lemma roundTo2_close (x : Rat) : |roundTo2 x - x| ≤ 1 / 200 := by
  have h := abs_sub_round (x * 100)
  have hx : roundTo2 x - x = -((x * 100 - (round (x * 100) : Int)) / 100) := by
    unfold roundTo2
    ring
  rw [hx, abs_neg, abs_div]
  have h100 : |(100 : Rat)| = 100 := by norm_num
  rw [h100]
  have := (div_le_div_iff_of_pos_right (c := (100 : Rat)) (by norm_num)).mpr h
  calc |x * 100 - (round (x * 100) : Int)| / 100
      ≤ (1 / 2) / 100 := this
    _ = 1 / 200 := by norm_num

/-- C3: for a prediction with current price c > 0, the direction is up
exactly when the predicted price exceeds c and down otherwise, and
`change_percent` is (p − c)/c × 100 rounded to two decimals — within 1/200
of the exact relative change; in particular current price 100 and predicted
price 103 give direction up and change_percent 3. -/
theorem prediction_direction_change (c p : Rat) (_hc : 0 < c) :
    (predictionDirection c p = .up ↔ c < p) ∧
    (predictionDirection c p = .down ↔ ¬ c < p) ∧
    changePercent c p = roundTo2 ((p - c) / c * 100) ∧
    |changePercent c p - (p - c) / c * 100| ≤ 1 / 200 ∧
    predictionDirection 100 103 = .up ∧
    changePercent 100 103 = 3 := by
  refine ⟨?_, ?_, rfl, roundTo2_close ((p - c) / c * 100), ?_, ?_⟩
  · by_cases h : c < p <;> simp [predictionDirection, h]
  · by_cases h : c < p <;> simp [predictionDirection, h]
  · norm_num [predictionDirection]
  · norm_num [changePercent, roundTo2, round_eq]

/-- Witness for C3 at the spec's scenario c = 100, p = 103. -/
theorem prediction_direction_change_witness :
    predictionDirection 100 103 = .up ∧ changePercent 100 103 = 3 :=
  ⟨(prediction_direction_change 100 103 (by norm_num)).2.2.2.2.1,
   (prediction_direction_change 100 103 (by norm_num)).2.2.2.2.2⟩

/-- The head of an ordered insertion is the new bar or the old head. -/
lemma insertBar_head (b : PriceBar) (l : List PriceBar) :
    (insertBar b l).head? = some b ∨ (insertBar b l).head? = l.head? := by
  cases l with
  | nil => exact Or.inl rfl
  | cons c t =>
      unfold insertBar
      by_cases h1 : b.date < c.date
      · rw [if_pos h1]
        exact Or.inl rfl
      · rw [if_neg h1]
        by_cases h2 : b.date = c.date
        · rw [if_pos h2]
          exact Or.inl rfl
        · rw [if_neg h2]
          exact Or.inr rfl

/-- Ordered insertion preserves strict date ordering. -/
lemma insertBar_chain (b : PriceBar) (l : List PriceBar)
    (hl : List.Chain' (fun x y => x.date < y.date) l) :
    List.Chain' (fun x y => x.date < y.date) (insertBar b l) := by
  induction l with
  | nil => simp [insertBar]
  | cons c t ih =>
      rw [List.chain'_cons'] at hl
      obtain ⟨hhead, ht⟩ := hl
      unfold insertBar
      by_cases h1 : b.date < c.date
      · rw [if_pos h1]
        rw [List.chain'_cons]
        exact ⟨h1, List.chain'_cons'.mpr ⟨hhead, ht⟩⟩
      · rw [if_neg h1]
        by_cases h2 : b.date = c.date
        · rw [if_pos h2]
          rw [List.chain'_cons']
          refine ⟨fun y hy => ?_, ht⟩
          rw [h2]
          exact hhead y hy
        · rw [if_neg h2]
          have hcb : c.date < b.date :=
            lt_of_le_of_ne (le_of_not_lt h1) (fun he => h2 he.symm)
          rw [List.chain'_cons']
          refine ⟨fun y hy => ?_, ih ht⟩
          rcases insertBar_head b t with hh | hh
          · rw [hh] at hy
            cases hy
            exact hcb
          · rw [hh] at hy
            exact hhead y hy

/-- `sortBars` always yields strictly increasing dates. -/
lemma sortBars_chain (bs : List PriceBar) :
    List.Chain' (fun x y => x.date < y.date) (sortBars bs) := by
  unfold sortBars
  induction bs with
  | nil => simp
  | cons b t ih => exact insertBar_chain b _ ih

/-- C7: every `FeatureRow` sequence the Feature Fusion Pipeline emits is
strictly increasing by date — in particular it has no duplicate and no
out-of-order dates. -/
theorem fusion_output_ordered (minLen : Nat) (bars : List PriceBar)
    (sents : List (Nat × Rat)) (rows : List FeatureRow)
    (h : fuseWindow minLen bars sents = .ok rows) :
    List.Chain' (fun a b => a.date < b.date) rows ∧
    List.Pairwise (fun a b => a.date < b.date) rows ∧
    List.Pairwise (fun a b => a.date ≠ b.date) rows := by
  simp only [fuseWindow] at h
  split at h
  · exact absurd h (by simp)
  · have hrows : rows = (sortBars bars).map (fun b =>
        { date := b.date
          priceFeature := minmaxNorm ((sortBars bars).map (fun x => x.close)) b.close
          sentimentFeature := sentimentFor sents b.date }) := by
      injection h with h
      exact h.symm
    have hchain : List.Chain' (fun a b : FeatureRow => a.date < b.date) rows := by
      rw [hrows, List.chain'_map]
      exact sortBars_chain bars
    have hpair : List.Pairwise (fun a b : FeatureRow => a.date < b.date) rows := by
      have : IsTrans FeatureRow (fun a b => a.date < b.date) :=
        ⟨fun _ _ _ hab hbc => lt_trans hab hbc⟩
      exact List.chain'_iff_pairwise.mp hchain
    exact ⟨hchain, hpair, hpair.imp fun hab => ne_of_lt hab⟩

/-- Witness for C7 at a concrete two-bar window (the later bar listed first,
with one superseded duplicate date). -/
theorem fusion_output_ordered_witness :
    List.Chain'
      (fun a b : FeatureRow => a.date < b.date)
      [{ date := 1, priceFeature := 0, sentimentFeature := 0 },
       { date := 2, priceFeature := 0, sentimentFeature := 0 }] :=
  (fusion_output_ordered 2
      [{ symbol := "ABC", date := 2, close := 10 },
       { symbol := "ABC", date := 1, close := 10 },
       { symbol := "ABC", date := 1, close := 10 }] []
      [{ date := 1, priceFeature := 0, sentimentFeature := 0 },
       { date := 2, priceFeature := 0, sentimentFeature := 0 }] rfl).1

end MarketMinds
